import Mathlib

/-!
Verification of the resume-to-cover-letter text pipeline
(`src/lib/cover-letter-generator.ts`): resume field extraction
(`extractResumeInfo`), job analysis (`analyzeJob`) and template-based
letter assembly (`generateCoverLetter` with four style templates).

The JavaScript source is shallowly embedded: strings are Lean `String`,
arrays are `List`, the regular expressions of the source are embedded as
explicit backtracking matchers over `List Char` that mirror the
leftmost-first, greedy-with-backtracking semantics of the JS regex
engine for the concrete patterns used, and the JS `Date` read by the
templates is passed in explicitly as a `JsDate` value.  Possibly
`undefined` values (out-of-range array indexing interpolated into
template literals, JS truthiness) are modelled with `Option String`.
-/

/-! ### Basic string helpers (JS primitives) -/

-- `startsWithChars n h` is true when the char list `n` is a prefix of `h`.
def startsWithChars : List Char → List Char → Bool
  | [], _ => true
  | _ :: _, [] => false
  | a :: as, b :: bs => a == b && startsWithChars as bs

-- Case-insensitive prefix test (both sides lowered characterwise).
def startsWithCI : List Char → List Char → Bool
  | [], _ => true
  | _ :: _, [] => false
  | a :: as, b :: bs => a.toLower == b.toLower && startsWithCI as bs

-- `containsChars n h` is true when `n` occurs as a contiguous run in `h`.
def containsChars (n : List Char) : List Char → Bool
  | [] => startsWithChars n []
  | c :: cs => startsWithChars n (c :: cs) || containsChars n cs

-- JS `hay.includes(sub)` (case sensitive).
def includesStr (hay sub : String) : Bool :=
  containsChars sub.toList hay.toList

-- JS `hay.startsWith(pre)` compared case-insensitively.
def startsWithCIStr (hay pre : String) : Bool :=
  startsWithCI pre.toList hay.toList

-- `parseInt` on a run of decimal digits.
def natOfDigits (ds : List Char) : Nat :=
  ds.foldl (fun n c => n * 10 + (c.toNat - 48)) 0

-- JS `s.replace(/\s+/g, rep)`: every maximal whitespace run becomes `rep`.
-- The boolean records whether the previous character was whitespace.
def collapseWsAux (rep : String) : List Char → Bool → String
  | [], _ => ""
  | c :: cs, prevWs =>
    if c.isWhitespace then
      (if prevWs then "" else rep) ++ collapseWsAux rep cs true
    else
      String.singleton c ++ collapseWsAux rep cs false

def jsReplaceWsRuns (rep : String) (s : String) : String :=
  collapseWsAux rep s.toList false

-- JS `s.toLowerCase()` / `s.toUpperCase()` (ASCII, kernel-reducible).
def jsToLower (s : String) : String := String.mk (s.data.map Char.toLower)

def jsToUpper (s : String) : String := String.mk (s.data.map Char.toUpper)

-- JS `s.trim()` (strip whitespace from both ends).
def jsTrim (s : String) : String :=
  String.mk (((s.data.dropWhile Char.isWhitespace).reverse.dropWhile
    Char.isWhitespace).reverse)

-- JS `s.split(re)` for a single-character class such as /[,;]/.
def splitChars (p : Char → Bool) : List Char → List String
  | [] => [""]
  | c :: cs =>
    if p c then "" :: splitChars p cs
    else
      match splitChars p cs with
      | [] => [String.singleton c]
      | h :: t => (String.singleton c ++ h) :: t

-- JS `s.split(c)` for a one-character separator string.
def jsSplitOnChar (c : Char) (s : String) : List String :=
  splitChars (fun a => a = c) s.toList

-- JS `s.split(re)` for a run class such as /[.!?]+/ (a maximal run of
-- separator characters produces a single boundary).
def splitRuns (p : Char → Bool) : List Char → List String
  | [] => [""]
  | [c] => if p c then ["", ""] else [String.singleton c]
  | c :: c2 :: cs =>
    if p c then
      if p c2 then splitRuns p (c2 :: cs)
      else "" :: splitRuns p (c2 :: cs)
    else
      match splitRuns p (c2 :: cs) with
      | [] => [String.singleton c]
      | h :: t => (String.singleton c ++ h) :: t

/-! ### JS value helpers (truthiness, undefined interpolation) -/

-- `a?.field || ""`.
def jsOrEmpty (o : Option String) : String := o.getD ""

-- JS `a || b` where `a` may be an undefined array element and the empty
-- string is falsy.
def jsOr (a b : Option String) : Option String :=
  match a with
  | some s => if s = "" then b else some s
  | none => b

-- JS `a || d` with a string literal default.
def jsOrD (a : Option String) (d : String) : String :=
  match a with
  | some s => if s = "" then d else s
  | none => d

-- JS `a || b || d` (left associated chain ending in a literal).
def jsOrD2 (a b : Option String) (d : String) : String :=
  jsOrD (jsOr a b) d

-- Interpolating a possibly-undefined value into a template literal:
-- JS renders `undefined` as the literal string "undefined".
def jsInterp (a : Option String) : String := a.getD "undefined"

/-! ### Backtracking regex matchers

A matcher sends the remaining input to the list of numbers of consumed
characters of every complete match at the current position, in the
backtracking priority order of the JS engine (greedy alternatives
first).  The head of the list is the match the engine reports. -/

abbrev Matcher := List Char → List Nat

def mcls (p : Char → Bool) : Matcher := fun cs =>
  match cs with
  | c :: _ => if p c then [1] else []
  | [] => []

def mlit (s : List Char) : Matcher := fun cs =>
  if startsWithChars s cs then [s.length] else []

def mlits (s : String) : Matcher := mlit s.toList

-- A keyword interpolated unescaped into a case-insensitive regex: every
-- character matches itself case-insensitively, except a period, which the
-- engine reads as the wildcard `.` (any character but a line terminator).
def startsWithCIPat : List Char → List Char → Bool
  | [], _ => true
  | _ :: _, [] => false
  | a :: as, b :: bs =>
    (if a = '.' then !(b = '\n' || b = '\r') else a.toLower == b.toLower) &&
      startsWithCIPat as bs

def mlitCIPat (s : List Char) : Matcher := fun cs =>
  if startsWithCIPat s cs then [s.length] else []

def mseq (a b : Matcher) : Matcher := fun cs =>
  (a cs).flatMap (fun n => ((List.drop n cs |> b).map (fun m => n + m)))

def malt (a b : Matcher) : Matcher := fun cs => a cs ++ b cs

def maltList (ms : List Matcher) : Matcher := fun cs =>
  ms.flatMap (fun m => m cs)

-- Greedy `?`.
def mopt (a : Matcher) : Matcher := fun cs => a cs ++ [0]

-- Greedy bounded repetition of a character class, consuming between
-- `lo` and `hi` characters (longest first).
def mrep (p : Char → Bool) (lo hi : Nat) : Matcher := fun cs =>
  let m := Nat.min (cs.takeWhile p).length hi
  (List.range (m + 1 - lo)).map (fun i => m - i)

-- Greedy `*` of a character class.
def mstar (p : Char → Bool) : Matcher := fun cs =>
  let m := (cs.takeWhile p).length
  (List.range (m + 1)).map (fun i => m - i)

-- Greedy `+` of a character class.
def msome (p : Char → Bool) : Matcher := fun cs =>
  let m := (cs.takeWhile p).length
  (List.range m).map (fun i => m - i)

-- Leftmost match: the JS engine tries every start position from the
-- left and reports the first complete match; the result is the matched
-- span (`match[0]`).
def firstMatch (m : Matcher) : List Char → Option (List Char)
  | [] =>
    match (m []).head? with
    | some _ => some []
    | none => none
  | c :: cs =>
    match (m (c :: cs)).head? with
    | some n => some (List.take n (c :: cs))
    | none => firstMatch m cs

/-! ### Data model (`ResumeInfo`, `JobAnalysis`, job metadata) -/

structure ResumeInfo where
  name : String
  email : String
  phone : String
  address : String
  skills : List String
  experience : String
  education : String
  workHistory : List String
  bio : String
deriving DecidableEq, Repr

structure JobAnalysis where
  requirements : List String
  matchedSkills : List String
  keyResponsibilities : List String
  companyInsights : String
deriving DecidableEq, Repr

structure JobInfo where
  companyName : String
  jobTitle : String
  jobDescription : String
deriving DecidableEq, Repr

-- The caller-supplied profile override (`userProfile` of the source,
-- an arbitrary object read with optional chaining).
structure UserProfile where
  name : Option String
  email : Option String
  phone : Option String
  address : Option String
  bio : Option String
deriving DecidableEq, Repr

def emptyUserProfile : UserProfile :=
  { name := none, email := none, phone := none, address := none, bio := none }

-- The `new Date()` the templates read, injected explicitly:
-- `month` is `getMonth()` (0-based), `day` is `getDate()`,
-- `year` is `getFullYear()`.
structure JsDate where
  month : Nat
  day : Nat
  year : Nat
deriving DecidableEq, Repr

def jsDateFormat (today : JsDate) : String :=
  toString (today.month + 1) ++ "/" ++ toString today.day ++ "/" ++ toString today.year

/-! ### ResumeExtractor (`extractResumeInfo`, source lines 28-278) -/

-- Name extraction: the regex /([A-Z][a-z]+ [A-Z][a-z]+)/ tried at each
-- position from the left (greedy lowercase runs; the maximal-munch run
-- is correct because the following token is never a lowercase letter).
def matchNameAt : List Char → Option (List Char)
  | [] => none
  | c0 :: rest =>
    if c0.isUpper then
      let r1 := rest.takeWhile Char.isLower
      let rest1 := rest.dropWhile Char.isLower
      if r1.isEmpty then none
      else
        match rest1 with
        | ' ' :: c2 :: rest2 =>
          if c2.isUpper then
            let r2 := rest2.takeWhile Char.isLower
            if r2.isEmpty then none
            else some (c0 :: r1 ++ ' ' :: c2 :: r2)
          else none
        | _ => none
    else none

def findName : List Char → Option (List Char)
  | [] => none
  | c :: cs =>
    match matchNameAt (c :: cs) with
    | some m => some m
    | none => findName cs

def extractName (resumeText : String) : String :=
  match findName resumeText.toList with
  | some m => String.mk m
  | none => ""

-- Email extraction: /([a-zA-Z0-9._-]+@[a-zA-Z0-9._-]+\.[a-zA-Z0-9_-]+)/
-- The local part must be a maximal run directly followed by an at sign;
-- the domain run is then split at the last dot that is followed by a
-- non-dot email character (the greedy backtracking order of the engine).
def emailChar (c : Char) : Bool :=
  c.isAlpha || c.isDigit || c = '.' || c = '_' || c = '-'

def lastDotSplit (dom : List Char) : Option Nat :=
  (List.range dom.length).foldl
    (fun acc i =>
      if dom.getD i ' ' = '.' ∧ 1 ≤ i ∧ dom.getD (i + 1) '.' ≠ '.' then some i
      else acc)
    none

def findEmailAt (cs : List Char) : Option (List Char) :=
  let loc := cs.takeWhile emailChar
  let rest1 := cs.dropWhile emailChar
  if loc.isEmpty then none
  else
    match rest1 with
    | '@' :: rest2 =>
      let dom := rest2.takeWhile emailChar
      match lastDotSplit dom with
      | some i =>
        some (loc ++ '@' :: (dom.take i ++ '.' ::
          ((dom.drop (i + 1)).takeWhile (fun c => !(c = '.')))))
      | none => none
    | _ => none

def findEmail : List Char → Option (List Char)
  | [] => none
  | c :: cs =>
    match findEmailAt (c :: cs) with
    | some m => some m
    | none => findEmail cs

def extractEmail (resumeText : String) : String :=
  match findEmail resumeText.toList with
  | some m => String.mk m
  | none => ""

-- Phone extraction: the ordered list of phone regexes of the source;
-- the first regex with any match wins and its first match is taken.
def sepCls (c : Char) : Bool := c = '-' || c = '.' || c.isWhitespace

-- /(\+\d{1,3}[-.\s]?)?(\(?\d{3}\)?[-.\s]?)?\d{3}[-.\s]?\d{4}/
def phonePattern1 : Matcher :=
  mseq (mopt (mseq (mlits "+") (mseq (mrep Char.isDigit 1 3) (mopt (mcls sepCls)))))
    (mseq (mopt (mseq (mopt (mlits "(")) (mseq (mrep Char.isDigit 3 3)
        (mseq (mopt (mlits ")")) (mopt (mcls sepCls))))))
      (mseq (mrep Char.isDigit 3 3) (mseq (mopt (mcls sepCls)) (mrep Char.isDigit 4 4))))

-- /\d{10}/
def phonePattern2 : Matcher := mrep Char.isDigit 10 10

-- /\d{3}[-.\s]?\d{3}[-.\s]?\d{4}/
def phonePattern3 : Matcher :=
  mseq (mrep Char.isDigit 3 3) (mseq (mopt (mcls sepCls))
    (mseq (mrep Char.isDigit 3 3) (mseq (mopt (mcls sepCls)) (mrep Char.isDigit 4 4))))

-- /\(\d{3}\)\s*\d{3}[-.\s]?\d{4}/
def phonePattern4 : Matcher :=
  mseq (mlits "(") (mseq (mrep Char.isDigit 3 3) (mseq (mlits ")")
    (mseq (mstar Char.isWhitespace)
      (mseq (mrep Char.isDigit 3 3) (mseq (mopt (mcls sepCls)) (mrep Char.isDigit 4 4))))))

def phoneRegexes : List Matcher :=
  [phonePattern1, phonePattern2, phonePattern3, phonePattern4]

def phoneLoop : List Matcher → List Char → String
  | [], _ => ""
  | m :: rest, cs =>
    match firstMatch m cs with
    | some span => String.mk span
    | none => phoneLoop rest cs

def extractPhone (resumeText : String) : String :=
  phoneLoop phoneRegexes resumeText.toList

-- Address extraction: lines containing a street-type keyword, NY
-- references, or a US ZIP pattern /\b[A-Z]{2}\s+\d{5}\b/.
def isWordChar (c : Char) : Bool := c.isAlpha || c.isDigit || c = '_'

def boundaryOk : Option Char → Bool
  | none => true
  | some c => !(isWordChar c)

def fiveDigitsBoundary : List Char → Bool
  | d1 :: d2 :: d3 :: d4 :: d5 :: rest =>
    d1.isDigit && d2.isDigit && d3.isDigit && d4.isDigit && d5.isDigit &&
      (match rest with
       | [] => true
       | c :: _ => !(isWordChar c))
  | _ => false

def zipTail (cs : List Char) : Bool :=
  let ws := cs.takeWhile Char.isWhitespace
  !ws.isEmpty && fiveDigitsBoundary (cs.dropWhile Char.isWhitespace)

def zipScan : Option Char → List Char → Bool
  | prev, a :: b :: rest =>
    (boundaryOk prev && a.isUpper && b.isUpper && zipTail rest) || zipScan (some a) (b :: rest)
  | _, _ => false

def zipTest (line : String) : Bool := zipScan none line.toList

def addressLineTest (line : String) : Bool :=
  includesStr line "Street" || includesStr line "Avenue" || includesStr line "Road" ||
  includesStr line "Lane" || includesStr line "Drive" || includesStr line "Blvd" ||
  includesStr line "NY" || includesStr line "New York" || zipTest line

def extractAddress (resumeText : String) : String :=
  match (jsSplitOnChar '\n' resumeText).filter addressLineTest with
  | [] => ""
  | l :: _ => jsTrim l

-- Skill extraction vocabulary (source lines 95-124), in source order.
def skillsKeywords : List String :=
  ["Python", "R", "SQL", "Java", "JavaScript", "TypeScript", "C++", "C#", "PHP", "Ruby",
   "HTML", "CSS", "React", "Angular", "Vue.js", "Node.js", "Express", "Django", "Flask",
   "Spring Boot", "ASP.NET", "Ruby on Rails", "jQuery", "Bootstrap", "Tailwind CSS",
   "Data Analysis", "Data Science", "Machine Learning", "Deep Learning", "NLP",
   "Computer Vision", "Statistics", "Statistical Analysis", "Hypothesis Testing",
   "A/B Testing", "Data Mining", "Data Visualization", "Data Modeling", "ETL",
   "Data Warehousing", "Big Data", "Data Engineering", "Data Pipelines",
   "Tableau", "Power BI", "Excel", "Google Sheets", "Looker", "Qlik", "D3.js",
   "SPSS", "SAS", "MATLAB", "Pandas", "NumPy", "SciPy", "Scikit-learn", "TensorFlow",
   "PyTorch", "Keras", "Hadoop", "Spark", "Hive", "Pig", "Kafka", "Airflow",
   "AWS", "Azure", "Google Cloud", "Docker", "Kubernetes", "Jenkins", "CI/CD",
   "Git", "GitHub", "GitLab", "Bitbucket", "Terraform", "Ansible", "Puppet", "Chef",
   "MySQL", "PostgreSQL", "MongoDB", "Oracle", "SQL Server", "SQLite", "Redis",
   "Cassandra", "DynamoDB", "Elasticsearch", "Neo4j", "GraphQL", "NoSQL",
   "Communication", "Teamwork", "Leadership", "Problem Solving", "Critical Thinking",
   "Time Management", "Project Management", "Agile", "Scrum", "Kanban", "JIRA",
   "Presentation", "Research", "Analysis", "Attention to Detail", "Creativity"]

def defaultSkills : List String :=
  ["Data Analysis", "Python", "SQL", "Machine Learning", "Data Visualization"]

-- Case-insensitive substring match of each vocabulary entry against the
-- resume text, in vocabulary order; the default set when nothing matched.
def extractSkills (resumeText : String) : List String :=
  let resumeTextLower := jsToLower resumeText
  let skills := skillsKeywords.filter (fun skill => includesStr resumeTextLower (jsToLower skill))
  if skills.length = 0 then defaultSkills else skills

-- Years-of-experience extraction: the ordered regex list of the source,
-- all with the i flag (matched against the lowered text).
def yearsTok : Matcher :=
  malt (mseq (mlits "year") (mopt (mlits "s"))) (mseq (mlits "yr") (mopt (mlits "s")))

-- /(\d+)\s*(?:years?|yrs?)(?:\s*of)?\s*experience/i
def expPattern1 : Matcher :=
  mseq (msome Char.isDigit) (mseq (mstar Char.isWhitespace) (mseq yearsTok
    (mseq (mopt (mseq (mstar Char.isWhitespace) (mlits "of")))
      (mseq (mstar Char.isWhitespace) (mlits "experience")))))

-- /experience\s*(?:of|:)?\s*(\d+)\s*(?:years?|yrs?)/i
def expPattern2 : Matcher :=
  mseq (mlits "experience") (mseq (mstar Char.isWhitespace)
    (mseq (mopt (malt (mlits "of") (mlits ":")))
      (mseq (mstar Char.isWhitespace)
        (mseq (msome Char.isDigit) (mseq (mstar Char.isWhitespace) yearsTok)))))

-- /(\d+)\+\s*(?:years?|yrs?)/i
def expPattern3 : Matcher :=
  mseq (msome Char.isDigit) (mseq (mlits "+") (mseq (mstar Char.isWhitespace) yearsTok))

def expRegexes : List Matcher := [expPattern1, expPattern2, expPattern3]

-- The captured group (\d+) is the unique digit run of the matched span.
def firstDigitRun (cs : List Char) : Nat :=
  natOfDigits ((cs.dropWhile (fun c => !c.isDigit)).takeWhile Char.isDigit)

def expLoop : List Matcher → List Char → Option Nat
  | [], _ => none
  | m :: rest, cs =>
    match firstMatch m cs with
    | some span => some (firstDigitRun span)
    | none => expLoop rest cs

def extractExperience (resumeText : String) : String :=
  match expLoop expRegexes (jsToLower resumeText).toList with
  | some years => toString years ++ " years of experience"
  | none => "experienced professional"

-- Education extraction (source lines 160-181).
def educationKeywords : List String :=
  ["Master", "Masters", "MS", "M.S.", "MBA", "Bachelor", "Bachelors", "BS", "B.S.",
   "PhD", "Ph.D.", "Doctorate", "Degree", "University", "College", "School",
   "Stony Brook", "Computer Science", "Data Science", "Statistics", "Mathematics"]

-- /((?:kw1|kw2|...)(?:[^.]*))/i : an education keyword (alternation in
-- list order) followed by the greedy run of non-period characters.  The
-- keywords are interpolated into the regex unescaped, so the periods in
-- "M.S.", "B.S." and "Ph.D." are wildcards in the source.
def educationMatcher : Matcher :=
  mseq (maltList (educationKeywords.map (fun k => mlitCIPat k.toList)))
    (mstar (fun c => !(c = '.')))

def extractEducation (resumeText : String) : String :=
  match firstMatch educationMatcher resumeText.toList with
  | some span => jsTrim (String.mk span)
  | none =>
    match (jsSplitOnChar '\n' resumeText).filter
        (fun line => educationKeywords.any (fun k => includesStr (jsToLower line) (jsToLower k))) with
    | [] => ""
    | l :: _ => jsTrim l

-- Work-history extraction (source lines 184-230).
def workHistoryKeywords : List String :=
  ["Experience", "Employment", "Work History", "Professional Experience"]

-- /(Experience|Employment|Work History|Professional Experience)/i.test(line)
def workHistoryTest (line : String) : Bool :=
  workHistoryKeywords.any (fun k => includesStr (jsToLower line) (jsToLower k))

-- line.match(/^(Education|Skills|Projects|References)/i)
def workSectionExit (line : String) : Bool :=
  ["Education", "Skills", "Projects", "References"].any (fun k => startsWithCIStr line k)

def workLoop : List String → Bool → String → List String → List String
  | [], _, currentPosition, acc =>
    if currentPosition ≠ "" then acc ++ [currentPosition] else acc
  | l :: ls, inWorkSection, currentPosition, acc =>
    let line := jsTrim l
    if workHistoryTest line then workLoop ls true currentPosition acc
    else if inWorkSection then
      let next :=
        if line = "" ∧ currentPosition ≠ "" then ("", acc ++ [currentPosition])
        else if line ≠ "" then
          ((if currentPosition = "" then line else currentPosition ++ " " ++ line), acc)
        else (currentPosition, acc)
      workLoop ls (if workSectionExit line then false else true) next.1 next.2
    else workLoop ls false currentPosition acc

def extractWorkHistory (resumeText : String) : List String :=
  let workHistory := (workLoop (jsSplitOnChar '\n' resumeText) false "" []).take 3
  if workHistory.length = 0 then
    ["Professional experience in data analysis and visualization"]
  else workHistory

-- Summary/bio extraction (source lines 233-263).
def summaryKeywords : List String := ["Summary", "Profile", "Objective", "About Me"]

def summaryTest (line : String) : Bool :=
  summaryKeywords.any (fun k => includesStr (jsToLower line) (jsToLower k))

def summarySectionExit (line : String) : Bool :=
  ["Experience", "Education", "Skills", "Projects", "References"].any
    (fun k => startsWithCIStr line k)

def summaryLoop : List String → Bool → String → String
  | [], _, summary => summary
  | l :: ls, inSummarySection, summary =>
    let line := jsTrim l
    if summaryTest line then summaryLoop ls true summary
    else if inSummarySection then
      if line = "" then summary
      else
        summaryLoop ls (if summarySectionExit line then false else true)
          (summary ++ line ++ " ")
    else summaryLoop ls false summary

def extractBio (resumeText : String) : String :=
  jsTrim (summaryLoop (jsSplitOnChar '\n' resumeText) false "")

-- The extractor: profile values win when truthy, otherwise the field is
-- extracted from the resume text.
def extractResumeInfo (resumeText : String) (userProfile : UserProfile) : ResumeInfo :=
  let name0 := jsOrEmpty userProfile.name
  let email0 := jsOrEmpty userProfile.email
  let phone0 := jsOrEmpty userProfile.phone
  let address0 := jsOrEmpty userProfile.address
  let bio0 := jsOrEmpty userProfile.bio
  { name := if name0 = "" then extractName resumeText else name0
    email := if email0 = "" then extractEmail resumeText else email0
    phone := if phone0 = "" then extractPhone resumeText else phone0
    address := if address0 = "" then extractAddress resumeText else address0
    skills := extractSkills resumeText
    experience := extractExperience resumeText
    education := extractEducation resumeText
    workHistory := extractWorkHistory resumeText
    bio := if bio0 = "" then extractBio resumeText else bio0 }

/-! ### JobAnalyzer (`analyzeJob`, source lines 283-397) -/

-- Requirements vocabulary (source lines 289-313), already lower case.
def requirementsKeywords : List String :=
  ["python", "r", "sql", "java", "javascript", "typescript", "c++", "c#", "php", "ruby",
   "html", "css", "react", "angular", "vue.js", "node.js", "express", "django", "flask",
   "data analysis", "data science", "machine learning", "deep learning", "nlp",
   "computer vision", "statistics", "statistical analysis", "hypothesis testing",
   "a/b testing", "data mining", "data visualization", "data modeling", "etl",
   "tableau", "power bi", "excel", "google sheets", "looker", "qlik", "d3.js",
   "spss", "sas", "matlab", "pandas", "numpy", "scipy", "scikit-learn", "tensorflow",
   "aws", "azure", "google cloud", "docker", "kubernetes", "jenkins", "ci/cd",
   "git", "github", "gitlab", "bitbucket",
   "mysql", "postgresql", "mongodb", "oracle", "sql server", "sqlite", "redis",
   "communication", "teamwork", "leadership", "problem solving", "critical thinking",
   "time management", "project management", "agile", "scrum", "kanban", "jira"]

def requirementsOf (jobDescription : String) : List String :=
  let jobDescLower := jsToLower jobDescription
  requirementsKeywords.filter (fun req => includesStr jobDescLower req)

-- The literal case-insensitive intersection of the resume skills with
-- the extracted requirements (source lines 321-323).
def skillsIntersection (jobDescription : String) (resumeInfo : ResumeInfo) : List String :=
  resumeInfo.skills.filter (fun skill =>
    (requirementsOf jobDescription).any (fun req => jsToLower req == jsToLower skill))

-- A phrase-trigger pattern /trigger(.*?)(?:\.|$)/i : the lazy dot group
-- cannot cross a line break; it stops at the first period or at the end
-- of the input.  `none` when the group cannot complete anywhere.
def lazyCaptureDot : List Char → Option String
  | [] => some ""
  | c :: cs =>
    if c = '.' then some ""
    else if c = '\n' ∨ c = '\r' then none
    else (lazyCaptureDot cs).map (fun s => String.singleton c ++ s)

def findTriggerCaptureAux (trig : List Char) : List Char → Option String
  | [] => none
  | c :: cs =>
    if startsWithCI trig (c :: cs) then
      match lazyCaptureDot (List.drop trig.length (c :: cs)) with
      | some cap => some cap
      | none => findTriggerCaptureAux trig cs
    else findTriggerCaptureAux trig cs

def findTriggerCapture (trigger text : String) : Option String :=
  findTriggerCaptureAux trigger.toList text.toList

-- Responsibility phrase triggers, in source order (lines 331-337).
def responsibilityTriggers : List String :=
  ["responsibilities include", "you will", "duties include",
   "responsibilities:", "what you\x27ll do:"]

-- matches[1].split(/[,;]/).map(r => r.trim()).filter(r => r.length > 10)
def fragsOf (cap : String) : List String :=
  ((splitChars (fun c => c = ',' || c = ';') cap.toList).map jsTrim).filter
    (fun r => 10 < r.length)

def actionVerbs : List String :=
  ["analyze", "develop", "create", "design", "implement", "manage", "build",
   "collaborate", "communicate", "report"]

def isSentenceSep (c : Char) : Bool := c = '.' || c = '!' || c = '?'

def sentencesOf (s : String) : List String := splitRuns isSentenceSep s.toList

-- Fallback: push the trimmed sentences containing an action verb,
-- stopping as soon as three have been collected (source lines 350-361).
def collectVerbSentences : List String → List String → List String
  | [], acc => acc
  | s :: rest, acc =>
    let acc2 :=
      if actionVerbs.any (fun verb => includesStr (jsToLower s) verb) then acc ++ [jsTrim s]
      else acc
    if 3 ≤ acc2.length then acc2 else collectVerbSentences rest acc2

def fallbackResponsibilities (jobDescription : String) : List String :=
  collectVerbSentences (sentencesOf jobDescription) []

-- The source iterates over every pattern (no break), accumulating the
-- fragments of each pattern whose capture is truthy (non-empty).
def keyResponsibilitiesOf (jobDescription : String) : List String :=
  let collected := responsibilityTriggers.foldl
    (fun acc trig =>
      match findTriggerCapture trig jobDescription with
      | some cap => if cap ≠ "" then acc ++ fragsOf cap else acc
      | none => acc)
    []
  let keyResponsibilities :=
    if collected.length = 0 then fallbackResponsibilities jobDescription else collected
  keyResponsibilities.take 3

-- Company-insight triggers, in source order (lines 370-376); first
-- pattern with a truthy capture wins (the loop breaks).
def companyTriggers : List String :=
  ["about us:", "about the company:", "our company:", "we are", "company overview:"]

def companyInsightsLoop : List String → String → String
  | [], _ => ""
  | trig :: rest, text =>
    match findTriggerCapture trig text with
    | some cap => if cap ≠ "" then jsTrim cap else companyInsightsLoop rest text
    | none => companyInsightsLoop rest text

def companyInsightsOf (jobDescription : String) : String :=
  let companyInsights := companyInsightsLoop companyTriggers jobDescription
  if companyInsights = "" then
    ((jsSplitOnChar ' ' jobDescription).headD "") ++
      "\x27s commitment to excellence and innovation in the industry"
  else companyInsights

def analyzeJob (jobDescription : String) (resumeInfo : ResumeInfo) : JobAnalysis :=
  let requirements := requirementsOf jobDescription
  let matchedSkills0 := skillsIntersection jobDescription resumeInfo
  let matchedSkills :=
    if matchedSkills0.length = 0 then resumeInfo.skills.take 3 else matchedSkills0
  { requirements := requirements
    matchedSkills := matchedSkills
    keyResponsibilities := keyResponsibilitiesOf jobDescription
    companyInsights := companyInsightsOf jobDescription }

/-! ### LetterComposer (`generateCoverLetter` and the four templates) -/

-- specialInstructions && specialInstructions.toLowerCase() !== "none"
--   && specialInstructions.trim() !== ""
def hasInstrStr (s : String) : Bool :=
  !(s == "") && !(jsToLower s == "none") && !(jsTrim s == "")

def proInstrText : Option String → String
  | some s => if hasInstrStr s then "\n\n" ++ s else ""
  | none => ""

def modInstrText : Option String → String
  | some s => if hasInstrStr s then "\n" ++ s else ""
  | none => ""

def creInstrText : Option String → String
  | some s => if hasInstrStr s then "\nSPECIAL NOTE: " ++ s ++ "\n" else ""
  | none => ""

def tradInstrText : Option String → String
  | some s => if hasInstrStr s then "\nI would like to note that " ++ s ++ "\n" else ""
  | none => ""

def generateProfessionalTemplate (resumeInfo : ResumeInfo) (jobInfo : JobInfo)
    (jobAnalysis : JobAnalysis) (specialInstructions : Option String)
    (today : JsDate) : String :=
  let formattedDate := jsDateFormat today
  let skillsHighlight :=
    if 0 < jobAnalysis.matchedSkills.length then
      String.intercalate ", " jobAnalysis.matchedSkills
    else String.intercalate ", " (resumeInfo.skills.take 3)
  let relevantExperience :=
    if resumeInfo.bio ≠ "" ∧ jsTrim resumeInfo.bio ≠ "" then resumeInfo.bio
    else
      match resumeInfo.workHistory with
      | w :: _ => "Throughout my career, I have " ++ jsToLower w
      | [] => "Throughout my career, I have developed strong analytical skills and the ability to translate complex data into actionable insights"
  let educationText :=
    if resumeInfo.education ≠ "" ∧ jsTrim resumeInfo.education ≠ "" then
      "\n\nWith my " ++ resumeInfo.education ++ ", I have developed a strong foundation in theoretical concepts and practical applications that are directly relevant to this role."
    else ""
  let specialInstructionsText := proInstrText specialInstructions
  let responsibilitiesText :=
    if 0 < jobAnalysis.keyResponsibilities.length then
      "\n\nIn this role, I understand that you are looking for someone who can " ++
        String.intercalate ", and " jobAnalysis.keyResponsibilities ++
        ". My background has prepared me well for these responsibilities, and I am eager to apply my skills to contribute to your team\x27s success."
    else ""
  jsTrim ("\n" ++ resumeInfo.name ++ "\n" ++ resumeInfo.address ++ "\n" ++ resumeInfo.email ++
    "\n" ++ resumeInfo.phone ++ "\n" ++ formattedDate ++
    "\n\nHiring Manager\n" ++ jobInfo.companyName ++ "\n[Company Address]" ++
    "\n\nDear Hiring Manager,\n\nI am excited to apply for the " ++ jobInfo.jobTitle ++
    " position at " ++ jobInfo.companyName ++ ". With my background in " ++
    skillsHighlight ++ " and " ++ resumeInfo.experience ++
    ", I am confident in my ability to make valuable contributions to your team." ++
    educationText ++ "\n\n" ++ relevantExperience ++ "." ++ responsibilitiesText ++
    "\n\nI am particularly impressed by " ++ jobAnalysis.companyInsights ++
    ". My experience with " ++ jsInterp (resumeInfo.skills.get? 0) ++
    " positions me uniquely to contribute to your projects, and I am eager to bring my expertise to your esteemed organization." ++
    specialInstructionsText ++
    "\n\nI would welcome the opportunity to discuss how my qualifications align with your needs for the " ++
    jobInfo.jobTitle ++
    " position. I am available at your convenience and can be reached at " ++
    resumeInfo.phone ++ " or " ++ resumeInfo.email ++
    ".\n\nThank you for considering my application. I look forward to the possibility of contributing to " ++
    jobInfo.companyName ++ "\x27s continued success.\n\nSincerely,\n\n" ++
    resumeInfo.name ++ "\n  ")

def generateModernTemplate (resumeInfo : ResumeInfo) (jobInfo : JobInfo)
    (jobAnalysis : JobAnalysis) (specialInstructions : Option String)
    (today : JsDate) : String :=
  let formattedDate := jsDateFormat today
  let skillsHighlight :=
    if 0 < jobAnalysis.matchedSkills.length then
      String.intercalate ", " jobAnalysis.matchedSkills
    else String.intercalate ", " (resumeInfo.skills.take 3)
  let personalStatement :=
    if resumeInfo.bio ≠ "" ∧ jsTrim resumeInfo.bio ≠ "" then resumeInfo.bio
    else
      match resumeInfo.workHistory with
      | w :: _ => w
      | [] => "I am a data professional passionate about turning complex information into actionable insights"
  let educationText :=
    if resumeInfo.education ≠ "" ∧ jsTrim resumeInfo.education ≠ "" then
      "• My " ++ resumeInfo.education ++ " has equipped me with the knowledge and skills necessary to excel in this role."
    else ""
  let specialInstructionsText := modInstrText specialInstructions
  let skillBullets :=
    String.intercalate "\n" ((resumeInfo.skills.take 3).map (fun skill => "• " ++ skill))
  jsTrim ("\n" ++ resumeInfo.name ++ "\n" ++ resumeInfo.email ++ " | " ++ resumeInfo.phone ++
    " | LinkedIn: linkedin.com/in/" ++ jsReplaceWsRuns "-" (jsToLower resumeInfo.name) ++
    "\n\n" ++ formattedDate ++ "\n\nDear " ++ jobInfo.companyName ++
    " Hiring Team,\n\nRE: Application for " ++ jobInfo.jobTitle ++
    " Position\n\nI\x27m excited to apply for the " ++ jobInfo.jobTitle ++ " role at " ++
    jobInfo.companyName ++
    ". Having researched your company\x27s innovative work in the industry, I\x27m eager to bring my expertise in " ++
    skillsHighlight ++ " to your team.\n\nKEY QUALIFICATIONS:\n• " ++ personalStatement ++
    "\n" ++ educationText ++ "\n• " ++ resumeInfo.experience ++ " with a focus on " ++
    jsInterp (resumeInfo.skills.get? 0) ++ " and " ++
    jsOrD (resumeInfo.skills.get? 1) "data analysis" ++
    "\n\nRELEVANT SKILLS:\n" ++ skillBullets ++ specialInstructionsText ++
    "\n\nWhat draws me to " ++ jobInfo.companyName ++ " is " ++
    jobAnalysis.companyInsights ++
    ". I believe my experience aligns perfectly with your needs for this role, and I\x27m particularly interested in contributing to " ++
    jsOrD (jobAnalysis.keyResponsibilities.get? 0) "your data-driven initiatives" ++
    ".\n\nI welcome the opportunity to discuss how my background matches your requirements. Please feel free to contact me at " ++
    resumeInfo.email ++ " or " ++ resumeInfo.phone ++
    " to arrange a conversation.\n\nThank you for your consideration.\n\nBest regards,\n\n" ++
    resumeInfo.name ++ "\n  ")

def generateCreativeTemplate (resumeInfo : ResumeInfo) (jobInfo : JobInfo)
    (jobAnalysis : JobAnalysis) (specialInstructions : Option String)
    (today : JsDate) : String :=
  let formattedDate := jsDateFormat today
  let uniqueSkills0 :=
    "Ability to transform complex data into actionable insights using " ++
      jsInterp (resumeInfo.skills.get? 0)
  let uniqueSkills1 :=
    "Experience with " ++
      jsOrD2 (jobAnalysis.matchedSkills.get? 0) (resumeInfo.skills.get? 1)
        "advanced analytics" ++ " to drive business decisions"
  let uniqueSkills2 :=
    "Strong problem-solving skills with a focus on " ++
      jsOrD2 (jobAnalysis.matchedSkills.get? 1) (resumeInfo.skills.get? 2)
        "data-driven solutions"
  let specialInstructionsText := creInstrText specialInstructions
  let educationText :=
    if resumeInfo.education ≠ "" ∧ jsTrim resumeInfo.education ≠ "" then
      "\nMy " ++ resumeInfo.education ++ " has given me a solid foundation in " ++
        jsInterp (jsOr (jobAnalysis.matchedSkills.get? 0) (resumeInfo.skills.get? 0)) ++ "."
    else ""
  let workHistoryText :=
    match resumeInfo.workHistory with
    | w :: _ => "\nMy experience includes: " ++ w
    | [] => ""
  jsTrim ("\n" ++ jsToUpper resumeInfo.name ++ "\n" ++ resumeInfo.email ++ " • " ++
    resumeInfo.phone ++ " • Portfolio: " ++ jsReplaceWsRuns "" (jsToLower resumeInfo.name) ++
    ".com\n\n" ++ formattedDate ++ "\n\nHello " ++ jobInfo.companyName ++
    " Team!\n\nWhen I discovered the " ++ jobInfo.jobTitle ++ " opportunity at " ++
    jobInfo.companyName ++
    ", I knew it was the perfect chance to combine my passion for " ++
    jsInterp (jsOr (jobAnalysis.matchedSkills.get? 0) (resumeInfo.skills.get? 0)) ++
    " with my skills in " ++ String.intercalate " and " (resumeInfo.skills.take 2) ++
    "." ++ educationText ++ workHistoryText ++ "\n\nWHY I\x27M EXCITED ABOUT " ++
    jsToUpper jobInfo.companyName ++
    ":\nI\x27ve been following your work and am impressed by your approach to innovation and excellence. The prospect of contributing to such forward-thinking projects is thrilling.\n\nWHAT I BRING TO THE TABLE:\n• " ++
    uniqueSkills0 ++ "\n• " ++ uniqueSkills1 ++ "\n• " ++ uniqueSkills2 ++ "\n• " ++
    resumeInfo.experience ++ " ready to make an immediate impact" ++
    specialInstructionsText ++
    "\n\nI\x27d love to show you how my creative approach and technical abilities can help " ++
    jobInfo.companyName ++ " continue to excel in " ++
    jsOrD (jobAnalysis.keyResponsibilities.get? 0) "data analysis and insights" ++
    ". Let\x27s schedule a time to talk about how we might work together!\n\nCreatively yours,\n\n" ++
    resumeInfo.name ++ "\n  ")

def generateTraditionalTemplate (resumeInfo : ResumeInfo) (jobInfo : JobInfo)
    (jobAnalysis : JobAnalysis) (specialInstructions : Option String)
    (today : JsDate) : String :=
  let formattedDate := jsDateFormat today
  let relevantSkills :=
    if 0 < jobAnalysis.matchedSkills.length then jobAnalysis.matchedSkills
    else resumeInfo.skills.take 3
  let specialInstructionsText := tradInstrText specialInstructions
  let educationText :=
    if resumeInfo.education ≠ "" ∧ jsTrim resumeInfo.education ≠ "" then
      "\n\nMy educational background includes " ++ resumeInfo.education ++
        ", which has provided me with a strong foundation in " ++
        jsInterp (relevantSkills.get? 0) ++ "."
    else ""
  let workHistoryText :=
    match resumeInfo.workHistory with
    | w :: _ => "\n\nMy professional experience includes " ++ w ++ "."
    | [] => ""
  jsTrim ("\n" ++ resumeInfo.name ++ "\n" ++ resumeInfo.address ++ "\n" ++ resumeInfo.email ++
    "\n" ++ resumeInfo.phone ++ "\n\n" ++ formattedDate ++
    "\n\nHiring Manager\n" ++ jobInfo.companyName ++ "\n[Company Address]" ++
    "\n\nDear Hiring Manager:\n\nPlease accept my application for the position of " ++
    jobInfo.jobTitle ++ " at " ++ jobInfo.companyName ++ ", as advertised. With " ++
    resumeInfo.experience ++
    ", I believe my qualifications make me an excellent candidate for this role.\n\nThroughout my professional career, I have developed strong skills in " ++
    String.intercalate ", " relevantSkills ++ ", and " ++
    jsInterp (resumeInfo.skills.get? 0) ++
    ". In my current position, I have consistently demonstrated the ability to deliver results and contribute to team success." ++
    workHistoryText ++ educationText ++ specialInstructionsText ++
    "\n\nI am particularly interested in joining " ++ jobInfo.companyName ++
    " because of your reputation for excellence in the industry. I am confident that my experience in " ++
    String.intercalate " and " (resumeInfo.skills.take 2) ++
    " would allow me to make a valuable contribution to your team.\n\nThank you for your time and consideration. I look forward to the opportunity to further discuss my qualifications in an interview. I can be reached at " ++
    resumeInfo.phone ++ " or " ++ resumeInfo.email ++
    ".\n\nSincerely,\n\n" ++ resumeInfo.name ++ "\n  ")

-- The style switch (source lines 416-427): "professional" and every
-- unrecognised style take the default branch.
def generateCoverLetter (resumeInfo : ResumeInfo) (jobInfo : JobInfo)
    (jobAnalysis : JobAnalysis) (specialInstructions : Option String)
    (templateStyle : String) (today : JsDate) : String :=
  if templateStyle = "modern" then
    generateModernTemplate resumeInfo jobInfo jobAnalysis specialInstructions today
  else if templateStyle = "creative" then
    generateCreativeTemplate resumeInfo jobInfo jobAnalysis specialInstructions today
  else if templateStyle = "traditional" then
    generateTraditionalTemplate resumeInfo jobInfo jobAnalysis specialInstructions today
  else
    generateProfessionalTemplate resumeInfo jobInfo jobAnalysis specialInstructions today

/-! ### Shared sample inputs for witnesses and counterexamples -/

def wResume : ResumeInfo :=
  { name := "Jane Roe", email := "jane@example.com", phone := "555-111-2222",
    address := "", skills := ["Python", "SQL"], experience := "experienced professional",
    education := "", workHistory := ["Analyst at Acme"], bio := "" }

def wJob : JobInfo :=
  { companyName := "Acme Labs", jobTitle := "Data Analyst", jobDescription := "desc" }

def wAnalysis : JobAnalysis :=
  { requirements := ["python"], matchedSkills := ["Python"],
    keyResponsibilities := ["analyze data sets"], companyInsights := "innovation" }

def wDate : JsDate := { month := 0, day := 1, year := 2026 }

-- The all-empty inputs of the zero-data path.
def zResume : ResumeInfo :=
  { name := "", email := "", phone := "", address := "", skills := [],
    experience := "", education := "", workHistory := [], bio := "" }

def zAnalysis : JobAnalysis :=
  { requirements := [], matchedSkills := [], keyResponsibilities := [],
    companyInsights := "" }

def zJob : JobInfo := { companyName := "", jobTitle := "", jobDescription := "" }

-- The record `extractResumeInfo` produces on the empty resume, and the
-- analysis of the empty job description against it.
def zeroDataResume : ResumeInfo := extractResumeInfo "" emptyUserProfile

def zeroDataAnalysis : JobAnalysis := analyzeJob "" zeroDataResume

/-! ### C1 -/

/-- C1: `analyzeJob(desc, resumeInfo).matchedSkills` is the case-insensitive
intersection of `resumeInfo.skills` with the matched requirements — a
sub-collection of `resumeInfo.skills` — except that when that intersection
is empty it falls back to the first 3 entries of `resumeInfo.skills`
(which is again a sub-collection of the skills). -/
theorem analyzeJob_matchedSkills_subset (jobDescription : String) (resumeInfo : ResumeInfo) :
    (analyzeJob jobDescription resumeInfo).matchedSkills =
      (if skillsIntersection jobDescription resumeInfo = [] then resumeInfo.skills.take 3
       else skillsIntersection jobDescription resumeInfo) ∧
    (analyzeJob jobDescription resumeInfo).matchedSkills.Sublist resumeInfo.skills := by
  have hfield : (analyzeJob jobDescription resumeInfo).matchedSkills =
      (if (skillsIntersection jobDescription resumeInfo).length = 0 then
        resumeInfo.skills.take 3
       else skillsIntersection jobDescription resumeInfo) := rfl
  by_cases h : skillsIntersection jobDescription resumeInfo = []
  · have hlen : (skillsIntersection jobDescription resumeInfo).length = 0 := by
      rw [h]; rfl
    refine ⟨?_, ?_⟩
    · rw [hfield, if_pos hlen, if_pos h]
    · rw [hfield, if_pos hlen]
      exact List.take_sublist 3 resumeInfo.skills
  · have hlen : ¬(skillsIntersection jobDescription resumeInfo).length = 0 := by
      intro h0
      exact h (List.length_eq_zero.mp h0)
    refine ⟨?_, ?_⟩
    · rw [hfield, if_neg hlen, if_neg h]
    · rw [hfield, if_neg hlen]
      exact List.filter_sublist resumeInfo.skills

/-! ### C2 -/

/-- C2: every skill vocabulary entry that occurs case-insensitively in the
resume text is listed in the extracted skills, and the skill sequence is a
sub-sequence of the vocabulary (hence in vocabulary order, not resume
order). -/
theorem extractResumeInfo_skills_complete (resumeText : String) (userProfile : UserProfile)
    (s : String) (hmem : s ∈ skillsKeywords)
    (hsub : includesStr (jsToLower resumeText) (jsToLower s) = true) :
    s ∈ (extractResumeInfo resumeText userProfile).skills ∧
    (extractResumeInfo resumeText userProfile).skills.Sublist skillsKeywords := by
  have hs : s ∈ skillsKeywords.filter
      (fun skill => includesStr (jsToLower resumeText) (jsToLower skill)) :=
    List.mem_filter.mpr ⟨hmem, hsub⟩
  have hne : ¬(skillsKeywords.filter
      (fun skill => includesStr (jsToLower resumeText) (jsToLower skill))).length = 0 := by
    intro h0
    rw [List.length_eq_zero.mp h0] at hs
    exact (List.not_mem_nil s) hs
  have hfield : (extractResumeInfo resumeText userProfile).skills =
      extractSkills resumeText := rfl
  rw [hfield]
  unfold extractSkills
  rw [if_neg hne]
  exact ⟨hs, List.filter_sublist skillsKeywords⟩

/-- Witness for C2 at a concrete resume text and vocabulary entry. -/
theorem extractResumeInfo_skills_complete_witness :
    "Python" ∈ (extractResumeInfo "Skilled in Python and SQL" emptyUserProfile).skills ∧
    (extractResumeInfo "Skilled in Python and SQL" emptyUserProfile).skills.Sublist
      skillsKeywords :=
  extractResumeInfo_skills_complete "Skilled in Python and SQL" emptyUserProfile "Python"
    (by decide) (by decide)

/-! ### C3 -/

/-- C3: an unrecognised template style selects exactly the professional
template output (the switch falls through to the default branch, and the
total function never errors). -/
theorem generateCoverLetter_unknown_style (resumeInfo : ResumeInfo) (jobInfo : JobInfo)
    (jobAnalysis : JobAnalysis) (specialInstructions : Option String) (today : JsDate)
    (templateStyle : String)
    (h1 : templateStyle ≠ "modern") (h2 : templateStyle ≠ "creative")
    (h3 : templateStyle ≠ "traditional") :
    generateCoverLetter resumeInfo jobInfo jobAnalysis specialInstructions templateStyle today
      = generateCoverLetter resumeInfo jobInfo jobAnalysis specialInstructions
          "professional" today := by
  unfold generateCoverLetter
  rw [if_neg h1, if_neg h2, if_neg h3,
    if_neg (by decide : ¬("professional" : String) = "modern"),
    if_neg (by decide : ¬("professional" : String) = "creative"),
    if_neg (by decide : ¬("professional" : String) = "traditional")]

/-- Witness for C3 at the style "nonsense". -/
theorem generateCoverLetter_unknown_style_witness :
    generateCoverLetter wResume wJob wAnalysis none "nonsense" wDate
      = generateCoverLetter wResume wJob wAnalysis none "professional" wDate :=
  generateCoverLetter_unknown_style wResume wJob wAnalysis none wDate "nonsense"
    (by decide) (by decide) (by decide)

/-! ### C4 -/

/-- C4: on the empty resume with an absent profile override the extractor
never fails and returns the record whose string fields are `""` and whose
sequence fields are empty, except for the documented defaults: the default
skill set, the placeholder work-history sentence, and the experience
fallback "experienced professional". -/
theorem extractResumeInfo_empty :
    extractResumeInfo "" emptyUserProfile =
      { name := "", email := "", phone := "", address := "",
        skills := ["Data Analysis", "Python", "SQL", "Machine Learning",
          "Data Visualization"],
        experience := "experienced professional", education := "",
        workHistory := ["Professional experience in data analysis and visualization"],
        bio := "" } := by
  decide

/-! ### C9 -/

/-- C9: the three pipeline stages are deterministic — re-running any stage
on identical inputs (including the injected date value read by the letter
templates) produces identical output, since each stage is embedded as a
pure function of its arguments. -/
theorem pipeline_deterministic (resumeText : String) (userProfile : UserProfile)
    (jobDescription : String) (resumeInfo : ResumeInfo) (jobInfo : JobInfo)
    (jobAnalysis : JobAnalysis) (specialInstructions : Option String)
    (templateStyle : String) (today : JsDate) :
    extractResumeInfo resumeText userProfile = extractResumeInfo resumeText userProfile ∧
    analyzeJob jobDescription resumeInfo = analyzeJob jobDescription resumeInfo ∧
    generateCoverLetter resumeInfo jobInfo jobAnalysis specialInstructions
        templateStyle today =
      generateCoverLetter resumeInfo jobInfo jobAnalysis specialInstructions
        templateStyle today :=
  ⟨rfl, rfl, rfl⟩

/-! ### C10 -/

/-- C10: for every resume text and profile override the extractor yields at
least one skill (the default set is substituted internally when nothing
matches), at least one work-history entry (a placeholder is substituted
when no section is found), and a non-empty experience string, so the
templates can always index `skills[0]` and `workHistory[0]`. -/
theorem extractResumeInfo_defaults_nonempty (resumeText : String)
    (userProfile : UserProfile) :
    1 ≤ (extractResumeInfo resumeText userProfile).skills.length ∧
    1 ≤ (extractResumeInfo resumeText userProfile).workHistory.length ∧
    (extractResumeInfo resumeText userProfile).experience ≠ "" := by
  refine ⟨?_, ?_, ?_⟩
  · show 1 ≤ (extractSkills resumeText).length
    unfold extractSkills
    by_cases h : (skillsKeywords.filter
        (fun skill => includesStr (jsToLower resumeText) (jsToLower skill))).length = 0
    · rw [if_pos h]
      decide
    · rw [if_neg h]
      omega
  · show 1 ≤ (extractWorkHistory resumeText).length
    unfold extractWorkHistory
    by_cases h : ((workLoop (jsSplitOnChar '\n' resumeText) false "" []).take 3).length = 0
    · rw [if_pos h]
      decide
    · rw [if_neg h]
      omega
  · show extractExperience resumeText ≠ ""
    unfold extractExperience
    cases h : expLoop expRegexes (jsToLower resumeText).toList with
    | none =>
      decide
    | some years =>
      intro hEq
      have hlen := congrArg String.length hEq
      rw [String.length_append] at hlen
      have h20 : (" years of experience").length = 20 := rfl
      have h0 : ("" : String).length = 0 := rfl
      omega

/-! ### C5 (corrected) -/

/-- Counterexample to C5 as stated: on the empty job description the
matched skills are NOT empty for a resume with skills — the empty
intersection triggers the first-3-skills fallback. -/
theorem analyzeJob_empty_matchedSkills_cex :
    (analyzeJob "" wResume).matchedSkills = ["Python", "SQL"] ∧
    (analyzeJob "" wResume).matchedSkills ≠ [] := by
  decide

/-- C5 (amended): on the empty job description the requirements and key
responsibilities are empty and the company insights fall back to the
generic sentence built from the (empty) first word, but the matched
skills are the first 3 resume skills (empty only when the resume skills
are empty), and nothing raises. -/
theorem analyzeJob_empty_characterization (resumeInfo : ResumeInfo) :
    analyzeJob "" resumeInfo =
      { requirements := [], matchedSkills := resumeInfo.skills.take 3,
        keyResponsibilities := [],
        companyInsights :=
          "\x27s commitment to excellence and innovation in the industry" } := by
  have hreq : requirementsOf "" = [] := by decide
  have hint : skillsIntersection "" resumeInfo = [] := by
    unfold skillsIntersection
    simp only [hreq, List.any_nil]
    exact List.filter_false resumeInfo.skills
  have hkr : keyResponsibilitiesOf "" = [] := by decide
  have hci : companyInsightsOf "" =
      "\x27s commitment to excellence and innovation in the industry" := by decide
  simp only [analyzeJob, hreq, hint, hkr, hci, List.length_nil]
  simp

/-! ### C6 (corrected) -/

-- Shared helper: the splice condition is false exactly on the values the
-- templates skip.
theorem hasInstrStr_eq_false (s : String)
    (h : jsToLower s = "none" ∨ jsTrim s = "") : hasInstrStr s = false := by
  unfold hasInstrStr
  rcases h with h | h <;> simp [h]

set_option maxRecDepth 8000 in
/-- Counterexample to C6 as stated: the literal string "n/a" is NOT
treated as "no special instructions" — the templates splice it into the
letter, so the output differs from the no-instructions output. -/
theorem specialInstructions_na_cex :
    generateCoverLetter wResume wJob wAnalysis (some "n/a") "professional" wDate ≠
      generateCoverLetter wResume wJob wAnalysis none "professional" wDate ∧
    includesStr
      (generateCoverLetter wResume wJob wAnalysis (some "n/a") "professional" wDate)
      "\n\nn/a" = true := by
  constructor
  · decide
  · decide

set_option maxRecDepth 8000 in
/-- C6 (amended): for every template style, `generateCoverLetter` treats
"none" (case-insensitively) and the empty/whitespace-only string as "no
special instructions", producing the same letter as passing no
instructions at all; "n/a" is not special — like any other non-empty
value it is spliced into the letter raw (a trailing paragraph for
professional/modern, a note sentence for traditional, a
"SPECIAL NOTE:" line for creative). -/
theorem specialInstructions_none_equiv :
    (∀ (resumeInfo : ResumeInfo) (jobInfo : JobInfo) (jobAnalysis : JobAnalysis)
        (today : JsDate) (s : String) (templateStyle : String),
      (jsToLower s = "none" ∨ jsTrim s = "") →
      generateCoverLetter resumeInfo jobInfo jobAnalysis (some s) templateStyle today =
        generateCoverLetter resumeInfo jobInfo jobAnalysis none templateStyle today) ∧
    includesStr
      (generateCoverLetter wResume wJob wAnalysis (some "n/a") "creative" wDate)
      "\nSPECIAL NOTE: n/a\n" = true := by
  constructor
  · intro resumeInfo jobInfo jobAnalysis today s templateStyle h
    have hf := hasInstrStr_eq_false s h
    unfold generateCoverLetter
    split_ifs
    · simp [generateModernTemplate, modInstrText, hf]
    · simp [generateCreativeTemplate, creInstrText, hf]
    · simp [generateTraditionalTemplate, tradInstrText, hf]
    · simp [generateProfessionalTemplate, proInstrText, hf]
  · decide

/-- Witness for the universally quantified part of the amended C6 at the
concrete instruction "NONE". -/
theorem specialInstructions_none_equiv_witness :
    generateCoverLetter wResume wJob wAnalysis (some "NONE") "modern" wDate =
      generateCoverLetter wResume wJob wAnalysis none "modern" wDate :=
  specialInstructions_none_equiv.1 wResume wJob wAnalysis wDate "NONE" "modern"
    (Or.inl (by decide))

/-! ### C7 (corrected) -/

/-- Modelled from the spec (responsibility extraction tie-break order):
the phrase-trigger patterns are tried in the fixed order with FIRST MATCH
WINS — only the first pattern that matches contributes its fragments; the
action-verb sentence fallback applies when no trigger matched; the result
is capped to 3 entries. This definition follows the words of the spec and
is compared against the source-derived `keyResponsibilitiesOf`. -/
def keyResponsibilitiesSpecModel (jobDescription : String) : List String :=
  (match responsibilityTriggers.findSome?
      (fun trig => findTriggerCapture trig jobDescription) with
   | some cap => fragsOf cap
   | none => fallbackResponsibilities jobDescription).take 3

def cexDesc : String :=
  "responsibilities include data cleaning tasks. you will build large dashboards."

/-- Counterexample to C7 as stated: on a description where both the first
and the second trigger match, the code keeps the fragments of BOTH
patterns (there is no break in the loop), so its output differs from the
first-match-wins extraction the claim describes. -/
theorem keyResponsibilities_first_match_cex :
    (analyzeJob cexDesc wResume).keyResponsibilities =
      ["data cleaning tasks", "build large dashboards"] ∧
    keyResponsibilitiesSpecModel cexDesc = ["data cleaning tasks"] ∧
    (analyzeJob cexDesc wResume).keyResponsibilities ≠
      keyResponsibilitiesSpecModel cexDesc := by
  refine ⟨by decide, by decide, by decide⟩

-- An emptiness test via length equals the test against the nil list.
theorem ite_length_eq_nil (A C : List String) :
    (if A.length = 0 then C else A) = (if A = [] then C else A) := by
  by_cases h : A = []
  · subst h; simp
  · rw [if_neg h, if_neg (fun h0 => h (List.length_eq_zero.mp h0))]

-- The imperative accumulation loop of the source is the concatenation of
-- the fragment lists of every trigger.
theorem collectLoop_eq_join (jobDescription : String) :
    ∀ (ts : List String) (acc : List String),
      ts.foldl
        (fun a trig =>
          match findTriggerCapture trig jobDescription with
          | some cap => if cap ≠ "" then a ++ fragsOf cap else a
          | none => a)
        acc
      = acc ++ (ts.map
          (fun trig =>
            match findTriggerCapture trig jobDescription with
            | some cap => if cap ≠ "" then fragsOf cap else []
            | none => [])).flatten := by
  intro ts
  induction ts with
  | nil => intro acc; simp
  | cons t ts ih =>
    intro acc
    simp only [List.foldl_cons, List.map_cons, List.flatten_cons]
    cases hf : findTriggerCapture t jobDescription with
    | none => rw [ih]; simp
    | some cap =>
      by_cases hc : cap ≠ ""
      · simp only [if_pos hc]
        rw [ih, List.append_assoc]
      · simp only [if_neg hc]
        rw [ih]
        simp

/-- C7 (amended): `analyzeJob` tries the five phrase-trigger patterns in
the fixed source order, but accumulates the >10-character trimmed
comma/semicolon fragments of EVERY pattern whose (lazy, up to the first
period or end of input) capture is non-empty — not only the first match;
the action-verb sentence fallback applies only when no pattern
contributed anything; the result is capped to 3 entries on both paths. -/
theorem keyResponsibilities_accumulation (jobDescription : String)
    (resumeInfo : ResumeInfo) :
    (analyzeJob jobDescription resumeInfo).keyResponsibilities =
      (let collected := (responsibilityTriggers.map
          (fun trig =>
            match findTriggerCapture trig jobDescription with
            | some cap => if cap ≠ "" then fragsOf cap else []
            | none => [])).flatten
       if collected = [] then fallbackResponsibilities jobDescription
       else collected).take 3 ∧
    (analyzeJob jobDescription resumeInfo).keyResponsibilities.length ≤ 3 := by
  have hfield : (analyzeJob jobDescription resumeInfo).keyResponsibilities =
      keyResponsibilitiesOf jobDescription := rfl
  have hloop := collectLoop_eq_join jobDescription responsibilityTriggers []
  rw [List.nil_append] at hloop
  constructor
  · rw [hfield]
    simp only [keyResponsibilitiesOf]
    rw [hloop, ite_length_eq_nil]
  · rw [hfield]
    simp only [keyResponsibilitiesOf]
    exact List.length_take_le 3 _

/-! ### C8 (corrected) -/

set_option maxRecDepth 8000 in
/-- Counterexample to C8 as stated: with the skills list empty the
professional template interpolates the undefined `skills[0]`, so the
letter contains the literal substring "undefined"; the same letter also
carries the unresolved recipient placeholder "[Company Address]" from
the template body, so the no-placeholder conjunct fails as well. -/
theorem coverLetter_undefined_cex :
    includesStr (generateCoverLetter zResume zJob zAnalysis none "professional" wDate)
      "undefined" = true ∧
    includesStr (generateCoverLetter zResume zJob zAnalysis none "professional" wDate)
      "[Company Address]" = true := by
  exact ⟨by decide, by decide⟩

set_option maxRecDepth 8000 in
/-- C8 (amended): on the zero-data records the extractor and analyzer
produce from empty inputs — every optional field empty, the skills list
non-empty by the extractor defaults — no template style's output
contains the literal substrings "undefined" or "null"; the letters are
not placeholder-free, however: the professional and traditional outputs
carry the literal recipient placeholder "[Company Address]" from their
template bodies, while the modern and creative outputs contain no such
placeholder.  With an empty skills list the unguarded `skills[0]`
interpolation makes the output contain "undefined" (see the
counterexample). -/
theorem coverLetter_no_undefined_zero_data (templateStyle : String) :
    includesStr (generateCoverLetter zeroDataResume zJob zeroDataAnalysis none
        templateStyle wDate) "undefined" = false ∧
    includesStr (generateCoverLetter zeroDataResume zJob zeroDataAnalysis none
        templateStyle wDate) "null" = false ∧
    includesStr (generateCoverLetter zeroDataResume zJob zeroDataAnalysis none
        templateStyle wDate) "[Company Address]"
      = (!(templateStyle == "modern") && !(templateStyle == "creative")) := by
  unfold generateCoverLetter
  split_ifs with h1 h2 h3
  · subst h1
    exact ⟨by decide, by decide, by decide⟩
  · subst h2
    exact ⟨by decide, by decide, by decide⟩
  · subst h3
    exact ⟨by decide, by decide, by decide⟩
  · have e1 : (templateStyle == "modern") = false := beq_eq_false_iff_ne.mpr h1
    have e2 : (templateStyle == "creative") = false := beq_eq_false_iff_ne.mpr h2
    refine ⟨by decide, by decide, ?_⟩
    rw [e1, e2]
    decide
